import Mathlib

/-!
Shallow embedding of the `ac_log` log-forwarding bridge
(`src/components/ac_log/src/lib.rs`) and of the key-slicing portion of the
HAWK request builder
(`src/components/fxa-client/src/http_client/hawk_request.rs`),
with theorems settling the specification claims about them.

Modelling conventions:
- Rust `String` byte sequences and `CString` payloads are `List UInt8`
  (the bytes before the implicit trailing NUL terminator).
- Fallible Rust operations are `Option`/three-valued results; `none` (or a
  dedicated `panicked` constructor) marks a Rust panic.
- The shared `Arc<AtomicBool>` shutdown flag, the crossbeam channels and the
  drain thread are modelled as one explicit `BridgeState`, with each source
  operation a function on that state; interleaving of the producer threads,
  the drain thread and the destroying thread is a small-step relation `Step`.
-/

namespace AcLog

/-- Byte payload of a Rust `CString`, without the trailing NUL. -/
abbrev CStr := List UInt8

/-- `CString::new(bytes)`: fails (returns `none`, i.e. `Err(NulError)` in
Rust) exactly when the byte sequence contains an interior NUL byte. -/
def cstring_new (bs : List UInt8) : Option CStr :=
  if bs.contains 0 then none else some bs

/-- UTF-8 bytes of a Rust `String` (`s.into_bytes()`). -/
def strBytes (s : String) : List UInt8 :=
  s.data.foldr (fun c acc => String.utf8EncodeChar c ++ acc) []

/-- The in-place loop body of `string_to_cstring_lossy`: replace a NUL byte
with `b'?'` (63), leave every other byte unchanged. -/
def sanitizeByte (b : UInt8) : UInt8 :=
  if b = 0 then 63 else b

/-- `string_to_cstring_lossy` (lib.rs lines 43-51): replace every NUL byte of
the string with `b'?'`, then `CString::new(bytes).expect(...)`. The `expect`
is the only failure path and is modelled as `none` (a panic). -/
def string_to_cstring_lossy (s : List UInt8) : Option CStr :=
  cstring_new (s.map sanitizeByte)

/-- `LogLevel` (lib.rs lines 12-21), the Android-logger severity levels. -/
inductive LogLevel where
  | VERBOSE
  | DEBUG
  | INFO
  | WARN
  | ERROR
  deriving DecidableEq, Repr

/-- The `#[repr(i32)]` discriminant of each `LogLevel` variant: the numeric
value handed across the FFI boundary. -/
def LogLevel.toInt : LogLevel → Int
  | .VERBOSE => 2
  | .DEBUG => 3
  | .INFO => 4
  | .WARN => 5
  | .ERROR => 6

/-- `log::Level`, the five severities of the Rust logging facade. -/
inductive Level where
  | Trace
  | Debug
  | Info
  | Warn
  | Error
  deriving DecidableEq, Repr

/-- `impl From<log::Level> for LogLevel` (lib.rs lines 23-33). -/
def Level.toLogLevel : Level → LogLevel
  | .Trace => .VERBOSE
  | .Debug => .DEBUG
  | .Info => .INFO
  | .Warn => .WARN
  | .Error => .ERROR

/-- The data of a facade-level `log::Record` that the bridge reads: severity,
rendered arguments, and the optional source file, line and module path. -/
structure FacadeRecord where
  level : Level
  args : String
  file : Option String
  line : Option Nat
  module_path : Option String
  deriving Repr

/-- The message-formatting `match` of `From<&log::Record> for LogRecord`
(lib.rs lines 56-61): `match (r.line(), r.file())` with arms
`(Some(line), Some(file))`, `(None, Some(file))` and `(_, None)`. -/
def formatMessage (line : Option Nat) (file : Option String) (args : String) : String :=
  match line, file with
  | some l, some f => f ++ "@" ++ toString l ++ ": " ++ args
  | none, some f => f ++ ": " ++ args
  | _, none => args

/-- `LogRecord` (lib.rs lines 37-41): the value moved through the handoff
queue to the drain thread. -/
structure LogRecord where
  level : LogLevel
  tag : Option CStr
  message : CStr
  deriving DecidableEq, Repr

/-- `impl From<&log::Record> for LogRecord` (lib.rs lines 53-71).
The tag is `r.module_path().and_then(|mp| CString::new(mp.to_owned()).ok())`;
the message is `string_to_cstring_lossy` of the formatted text. `none` marks
the panic inside `string_to_cstring_lossy`. -/
def logRecord_from (r : FacadeRecord) : Option LogRecord :=
  (string_to_cstring_lossy (strBytes (formatMessage r.line r.file r.args))).map
    fun msg =>
      { level := r.level.toLogLevel
        tag := r.module_path.bind fun mp => cstring_new (strBytes mp)
        message := msg }

/-- One invocation of the external `LogCallback`: the three arguments
`callback(level, tag_ptr, msg_ptr)` (lib.rs line 137); a `none` tag is the
null pointer. -/
structure CallbackEvent where
  level : LogLevel
  tag : Option CStr
  message : CStr
  deriving DecidableEq

/-- Whether the drain thread's loop has returned. -/
inductive DrainStatus where
  | Running
  | Stopped
  deriving DecidableEq

/-- The shared state of one bridge instance: the `Arc<AtomicBool>` shutdown
flag, the unbounded record channel (as the FIFO of in-flight records), the
bounded(1) done channel (as a pending-signal flag), whether the record
channel's producer side is gone, whether the drain thread has exited, and
the trace of callback invocations made so far. -/
structure BridgeState where
  stopped : Bool
  queue : List LogRecord
  doneSignal : Bool
  senderClosed : Bool
  drain : DrainStatus
  delivered : List CallbackEvent
  deriving DecidableEq

/-- `LogSink::enabled` (lib.rs lines 95-98): `!self.stopped.load(SeqCst)`. -/
def LogSink.enabled (s : BridgeState) : Bool :=
  !s.stopped

/-- `LogSink::log` (lib.rs lines 101-112): check `stopped` first and return
unchanged if set; otherwise encode the record (`record.into()`, which can
only fail by panicking inside `string_to_cstring_lossy`) and
`self.sender.send(..).unwrap()`. The send fails — and the `unwrap` panics,
modelled as `none` — exactly when the receiving drain thread has exited and
dropped the receiver. -/
def LogSink.log (s : BridgeState) (r : FacadeRecord) : Option BridgeState :=
  if s.stopped then some s
  else
    (logRecord_from r).bind fun rec =>
      if s.drain = .Stopped then none
      else some { s with queue := s.queue ++ [rec] }

/-- Which arm of the `crossbeam_channel::select!` fires in one iteration of
the drain loop. -/
inductive SelectChoice where
  | recvRecord
  | recvDone
  deriving DecidableEq

/-- One iteration of the drain thread's loop (lib.rs lines 125-153).
`none` means the thread cannot take this step (it has already exited, or the
chosen channel has nothing to deliver and the select stays blocked).
The `recvRecord` arm receives from the record channel: with a record queued
it pops it, returns at once if `stopped` is set (discarding the record),
otherwise invokes the callback, then re-checks `stopped` after the select;
with the queue empty the receive only completes as `Err` when the sender
side is gone, in which case the thread stores `true` into `stopped` and
returns. The `recvDone` arm consumes the done signal and returns. -/
def drainStep (s : BridgeState) (c : SelectChoice) : Option BridgeState :=
  if s.drain = .Stopped then none
  else
    match c with
    | .recvDone =>
      if s.doneSignal then some { s with doneSignal := false, drain := .Stopped }
      else none
    | .recvRecord =>
      match s.queue with
      | rec :: rest =>
        if s.stopped then
          some { s with queue := rest, drain := .Stopped }
        else
          let s1 : BridgeState := { s with
            queue := rest
            delivered := s.delivered ++
              [{ level := rec.level, tag := rec.tag, message := rec.message }] }
          if s1.stopped then some { s1 with drain := .Stopped } else some s1
      | [] =>
        if s.senderClosed then some { s with stopped := true, drain := .Stopped }
        else none

/-- The state mutation of `Drop for LogAdapterState` (lib.rs lines 174-184):
`self.stopped.store(true, SeqCst)` followed by `self.done_sender.send(())`. -/
def dropStore (s : BridgeState) : BridgeState :=
  { s with stopped := true, doneSignal := true }

/-- Interleaving of the threads of one bridge: a producer thread runs
`LogSink::log`, the drain thread runs one loop iteration, or the destroying
thread runs the `Drop` stores. -/
inductive Step : BridgeState → BridgeState → Prop where
  | sink (r : FacadeRecord) (s s' : BridgeState) :
      LogSink.log s r = some s' → Step s s'
  | drain (c : SelectChoice) (s s' : BridgeState) :
      drainStep s c = some s' → Step s s'
  | destroy (s : BridgeState) : Step s (dropStore s)

/-- The state assembled by `LogAdapterState::init` (lib.rs lines 116-156)
before its trailing `log::info!`: fresh `false` shutdown flag, empty
channels, drain thread running, producer side alive, no callback made. -/
def mkBridge : BridgeState :=
  { stopped := false
    queue := []
    doneSignal := false
    senderClosed := false
    drain := .Running
    delivered := [] }

/-- The facade record produced by the `log::info!("ac_log adapter ...")`
call at the end of `LogAdapterState::init` (lib.rs line 168). The macro
captures the call site's module path (`ac_log`), file and line; file and
line are left as parameters of the model. -/
def initRecord (file : Option String) (line : Option Nat) : FacadeRecord :=
  { level := .Info
    args := "ac_log adapter initialized!"
    file := file
    line := line
    module_path := some "ac_log" }

/-- `LogAdapterState::init` (lib.rs lines 116-169): build the fresh bridge
state, install the sink, then emit the single initialization info record
through the sink itself. -/
def LogAdapterState.init (file : Option String) (line : Option Nat) : Option BridgeState :=
  LogSink.log mkBridge (initRecord file line)

/-- How the drain thread terminated: normal return, or by an unwound panic
(e.g. a panic of the external callback propagating out of the loop). -/
inductive ThreadOutcome where
  | finished
  | panicked
  deriving DecidableEq

/-- The `self.handle.take()` / `h.join().unwrap()` tail of
`Drop for LogAdapterState` (lib.rs lines 180-182): `join` returns the
thread's outcome and `unwrap` re-raises a panicked outcome (`none`). -/
def dropJoin (t : ThreadOutcome) : Option Unit :=
  match t with
  | .finished => some ()
  | .panicked => none

/-- Result of a call to `ac_log_adapter_destroy` as seen by the foreign
caller: either it returns normally, or the process aborts. -/
inductive DestroyResult where
  | returned
  | aborted
  deriving DecidableEq

/-- `ac_log_adapter_destroy` (lib.rs lines 200-205):
`abort_on_panic::call_with_output(|| drop(Box::from_raw(..)))`. The `Drop`
impl stores the flag, sends the done signal, joins the drain thread and
unwraps the join result; a re-raised panic hits `abort_on_panic` and aborts
the process instead of returning. -/
def ac_log_adapter_destroy (s : BridgeState) (t : ThreadOutcome) :
    BridgeState × DestroyResult :=
  (dropStore s,
    match dropJoin t with
    | some _ => .returned
    | none => .aborted)

/-- A facade record carrying the rendered message `"hello"` at info level
with no source file or line, and a caller-chosen module path. -/
def helloRecord (mp : Option String) : FacadeRecord :=
  { level := .Info
    args := "hello"
    file := none
    line := none
    module_path := mp }

/-- Sample state of a bridge whose shutdown flag has been set while one
stale record is still sitting in the handoff queue. -/
def wStopped : BridgeState :=
  { stopped := true
    queue := [{ level := .INFO, tag := none, message := strBytes "stale" }]
    doneSignal := false
    senderClosed := false
    drain := .Running
    delivered := [] }

/-- `wStopped` after the drain thread has received and discarded the stale
record and exited. -/
def wStopped2 : BridgeState :=
  { wStopped with queue := [], drain := .Stopped }

/-- A facade record whose module path contains an interior NUL byte. -/
def nulModuleRecord : FacadeRecord :=
  { level := .Info
    args := "boom"
    file := none
    line := none
    module_path := some "a\x00b" }

/-- A facade record with a NUL-free module path. -/
def appRecord : FacadeRecord :=
  { level := .Warn
    args := "boom"
    file := none
    line := none
    module_path := some "app" }

/-- The `LogRecord` the encoder produces from `appRecord`. -/
def appLogRecord : LogRecord :=
  { level := .WARN
    tag := some (strBytes "app")
    message := strBytes "boom" }

/-- The complete single-record scenario: create the bridge (taking the init
log call site as unknown), log one `"hello"` record, then let the drain
thread run two loop iterations. -/
def scenarioRun (mp : Option String) : Option BridgeState :=
  (LogAdapterState.init none none).bind fun s0 =>
  (LogSink.log s0 (helloRecord mp)).bind fun s1 =>
  (drainStep s1 .recvRecord).bind fun s2 =>
  drainStep s2 .recvRecord

/-- Concrete intermediate states of the single-record scenario with module
path `"app"`: after bridge creation. -/
def w0 : BridgeState :=
  (LogAdapterState.init none none).getD mkBridge

/-- Scenario state after logging the `"hello"` record. -/
def w1 : BridgeState :=
  (LogSink.log w0 (helloRecord (some "app"))).getD mkBridge

/-- Scenario state after the drain thread delivers the init record. -/
def w2 : BridgeState :=
  (drainStep w1 .recvRecord).getD mkBridge

/-- Scenario state after the drain thread delivers the `"hello"` record. -/
def w3 : BridgeState :=
  (drainStep w2 .recvRecord).getD mkBridge

end AcLog

namespace Hawk

/-- `KEY_LENGTH` (hawk_request.rs line 13). -/
def KEY_LENGTH : Nat := 32

/-- Rust slice indexing `&v[a..b]`: panics (`none`) unless `a ≤ b` and
`b ≤ v.len()`. -/
def sliceIndex (v : List UInt8) (a b : Nat) : Option (List UInt8) :=
  if a ≤ b ∧ b ≤ v.length then some ((v.drop a).take (b - a)) else none

/-- Lower-case hex digit of a value below 16. -/
def hexDigit (n : Nat) : Char :=
  if n < 10 then Char.ofNat (48 + n) else Char.ofNat (87 + n)

/-- `hex::encode`: two lower-case hex digits per byte. -/
def hexEncode (bs : List UInt8) : String :=
  String.mk (bs.foldr (fun b acc => hexDigit (b.toNat / 16) :: hexDigit (b.toNat % 16) :: acc) [])

/-- `hawk::Credentials` as built in `make_hawk_header` (hawk_request.rs
lines 51-54): hex-encoded token id and raw HMAC key bytes. -/
structure HawkCredentials where
  id : String
  key : List UInt8
  deriving DecidableEq

/-- Outcomes of the external collaborators that `make_hawk_header` and
`build` delegate to via `?` (URL parsing into a hawk request, the hawk
header computation, `HeaderValue::from_str`, and `reqwest`'s request
assembly). They are parameters of the model: each either succeeds or yields
an error that `?` propagates as `Err`. -/
structure ExternalSteps where
  fromUrl : Except String Unit
  makeHeader : HawkCredentials → Except String String
  headerValue : String → Except String Unit
  reqwestBuild : Except String Unit

/-- Result of a fallible Rust function, keeping a Rust panic distinct from
a returned `Err`. -/
inductive HawkResult (α : Type) where
  | ok (a : α)
  | err (e : String)
  | panicked
  deriving DecidableEq

namespace HAWKRequestBuilder

/-- `HAWKRequestBuilder::make_hawk_header` (hawk_request.rs lines 39-57):
after `RequestBuilder::from_url(..)?` succeeds, slice the supplied key as
`&hkdf_sha256_key[0..KEY_LENGTH]` (hex-encoded into the token id) and
`&hkdf_sha256_key[KEY_LENGTH..(2 * KEY_LENGTH)]` (the HMAC key); an
out-of-bounds slice is a panic, not an `Err`. Then delegate to
`make_header` and `HeaderValue::from_str`, prefixing the header with
`"Hawk "`. -/
def make_hawk_header (ext : ExternalSteps) (hkdf_sha256_key : List UInt8) :
    HawkResult String :=
  match ext.fromUrl with
  | .error e => .err e
  | .ok _ =>
    match sliceIndex hkdf_sha256_key 0 KEY_LENGTH with
    | none => .panicked
    | some token_bytes =>
      match sliceIndex hkdf_sha256_key KEY_LENGTH (2 * KEY_LENGTH) with
      | none => .panicked
      | some hmac_key =>
        let creds : HawkCredentials := { id := hexEncode token_bytes, key := hmac_key }
        match ext.makeHeader creds with
        | .error e => .err e
        | .ok header =>
          match ext.headerValue ("Hawk " ++ header) with
          | .error e => .err e
          | .ok _ => .ok ("Hawk " ++ header)

/-- `HAWKRequestBuilder::build` (hawk_request.rs lines 59-69): its first
step is `self.make_hawk_header()?`; a panic there propagates, an `Err`
is returned, and on success the request assembly (`reqwest`) may still
fail with its own `Err`. -/
def build (ext : ExternalSteps) (hkdf_sha256_key : List UInt8) : HawkResult String :=
  match make_hawk_header ext hkdf_sha256_key with
  | .panicked => .panicked
  | .err e => .err e
  | .ok h =>
    match ext.reqwestBuild with
    | .error e => .err e
    | .ok _ => .ok h

end HAWKRequestBuilder

/-- An instantiation of the external collaborators in which every delegated
step succeeds. -/
def extOk : ExternalSteps :=
  { fromUrl := .ok ()
    makeHeader := fun _ => .ok "hdr"
    headerValue := fun _ => .ok ()
    reqwestBuild := .ok () }

end Hawk

namespace AcLog

theorem sanitizeByte_ne_zero (b : UInt8) : sanitizeByte b ≠ 0 := by
  unfold sanitizeByte
  split
  · decide
  · assumption

theorem mem_map_sanitize_ne_zero {b : UInt8} {s : List UInt8}
    (h : b ∈ s.map sanitizeByte) : b ≠ 0 := by
  obtain ⟨a, _, rfl⟩ := List.mem_map.mp h
  exact sanitizeByte_ne_zero a

theorem cstring_new_eq_ite (bs : List UInt8) :
    cstring_new bs = if (0 : UInt8) ∈ bs then none else some bs := by
  unfold cstring_new
  by_cases h : (0 : UInt8) ∈ bs
  · rw [if_pos (by simpa using h), if_pos h]
  · rw [if_neg (by simpa using h), if_neg h]

theorem string_to_cstring_lossy_eq (s : List UInt8) :
    string_to_cstring_lossy s = some (s.map sanitizeByte) := by
  unfold string_to_cstring_lossy
  rw [cstring_new_eq_ite, if_neg]
  exact fun h => mem_map_sanitize_ne_zero h rfl

theorem log_of_stopped {s : BridgeState} (r : FacadeRecord) (hs : s.stopped = true) :
    LogSink.log s r = some s := by
  simp [LogSink.log, hs]

theorem drainStep_preserve {s s' : BridgeState} {c : SelectChoice}
    (h : drainStep s c = some s') (hs : s.stopped = true) :
    s'.stopped = true ∧ s'.delivered = s.delivered := by
  unfold drainStep at h
  by_cases hd : s.drain = .Stopped
  · rw [if_pos hd] at h
    cases h
  · rw [if_neg hd] at h
    cases c with
    | recvDone =>
      by_cases hds : s.doneSignal = true
      · rw [if_pos hds] at h
        cases Option.some.inj h
        exact ⟨hs, rfl⟩
      · rw [if_neg hds] at h
        cases h
    | recvRecord =>
      match hq : s.queue with
      | rec :: rest =>
        rw [hq] at h
        dsimp only at h
        rw [if_pos hs] at h
        cases Option.some.inj h
        exact ⟨hs, rfl⟩
      | [] =>
        rw [hq] at h
        dsimp only at h
        by_cases hsc : s.senderClosed = true
        · rw [if_pos hsc] at h
          cases Option.some.inj h
          exact ⟨rfl, rfl⟩
        · rw [if_neg hsc] at h
          cases h

theorem step_preserve {s s' : BridgeState} (h : Step s s') (hs : s.stopped = true) :
    s'.stopped = true ∧ s'.delivered = s.delivered := by
  cases h with
  | sink r _ _ hl =>
    rw [log_of_stopped r hs] at hl
    cases Option.some.inj hl
    exact ⟨hs, rfl⟩
  | drain c _ _ hd => exact drainStep_preserve hd hs
  | destroy _ => exact ⟨rfl, rfl⟩

theorem steps_preserve {s s' : BridgeState} (hst : Relation.ReflTransGen Step s s')
    (hs : s.stopped = true) : s'.stopped = true ∧ s'.delivered = s.delivered := by
  induction hst with
  | refl => exact ⟨hs, rfl⟩
  | tail _ hbc ih =>
    obtain ⟨h1, h2⟩ := ih
    obtain ⟨h3, h4⟩ := step_preserve hbc h1
    exact ⟨h3, h4.trans h2⟩

theorem logRecord_from_eq (r : FacadeRecord) :
    logRecord_from r =
      some { level := r.level.toLogLevel
             tag := r.module_path.bind fun mp => cstring_new (strBytes mp)
             message := (strBytes (formatMessage r.line r.file r.args)).map sanitizeByte } := by
  unfold logRecord_from
  rw [string_to_cstring_lossy_eq]
  rfl

theorem log_eq_of_not_stopped {s : BridgeState} (r : FacadeRecord)
    (hs : s.stopped = false) (hr : s.drain = .Running) :
    LogSink.log s r =
      some { s with queue := s.queue ++
        [{ level := r.level.toLogLevel
           tag := r.module_path.bind fun mp => cstring_new (strBytes mp)
           message := (strBytes (formatMessage r.line r.file r.args)).map sanitizeByte }] } := by
  have hd : s.drain ≠ .Stopped := by
    rw [hr]
    exact fun hcon => nomatch hcon
  unfold LogSink.log
  rw [if_neg (by simp [hs]), logRecord_from_eq]
  dsimp only [Option.bind]
  rw [if_neg hd]

theorem drainStep_deliver {s : BridgeState} {rec : LogRecord} {rest : List LogRecord}
    (hq : s.queue = rec :: rest) (hs : s.stopped = false) (hr : s.drain = .Running) :
    drainStep s .recvRecord =
      some { s with
              queue := rest
              delivered := s.delivered ++
                [{ level := rec.level, tag := rec.tag, message := rec.message }] } := by
  have hd : s.drain ≠ .Stopped := by
    rw [hr]
    exact fun hcon => nomatch hcon
  unfold drainStep
  rw [if_neg hd]
  dsimp only
  rw [hq]
  dsimp only
  rw [if_neg (by simp [hs])]
  rw [if_neg (by simp [hs])]

/-- Claim C1 (confirmed): once the shared shutdown flag is set, a drain-loop
iteration that receives a queued record discards it, makes no callback
invocation and exits the loop; and along any interleaving of further program
steps (producer logs, drain iterations, handle destruction) the trace of
callback invocations never grows, so records queued concurrently with or
after shutdown are never delivered. -/
theorem C1_shutdown_no_delivery (s : BridgeState) (h : s.stopped = true) :
    (∀ rec rest s2, s.queue = rec :: rest → drainStep s .recvRecord = some s2 →
      s2.delivered = s.delivered ∧ s2.queue = rest ∧ s2.drain = .Stopped) ∧
    (∀ s2, Relation.ReflTransGen Step s s2 → s2.delivered = s.delivered) := by
  constructor
  · intro rec rest s2 hq hstep
    unfold drainStep at hstep
    by_cases hd : s.drain = DrainStatus.Stopped
    · rw [if_pos hd] at hstep
      cases hstep
    · rw [if_neg hd] at hstep
      dsimp only at hstep
      rw [hq] at hstep
      dsimp only at hstep
      rw [if_pos h] at hstep
      cases Option.some.inj hstep
      exact ⟨rfl, rfl, rfl⟩
  · intro s2 hst
    exact (steps_preserve hst h).2

/-- Witness for C1 at a concrete stopped state holding one stale record. -/
theorem C1_witness :
    wStopped2.delivered = wStopped.delivered ∧ wStopped2.queue = [] ∧
      wStopped2.drain = DrainStatus.Stopped :=
  (C1_shutdown_no_delivery wStopped (by decide)).1
    { level := .INFO, tag := none, message := strBytes "stale" } [] wStopped2
    (by decide) (by decide)

/-- Claim C2 (confirmed): after the shared shutdown flag is set, every call
to `LogSink::enabled` returns false and every call to `LogSink::log` returns
at once with the state unchanged, encoding nothing and enqueueing nothing. -/
theorem C2_idempotent_suppression (s : BridgeState) (r : FacadeRecord)
    (h : s.stopped = true) :
    LogSink.enabled s = false ∧ LogSink.log s r = some s :=
  ⟨by simp [LogSink.enabled, h], log_of_stopped r h⟩

/-- Witness for C2 at a concrete stopped state. -/
theorem C2_witness :
    LogSink.enabled wStopped = false ∧
      LogSink.log wStopped (helloRecord none) = some wStopped :=
  C2_idempotent_suppression wStopped (helloRecord none) (by decide)

/-- Claim C3 (confirmed): the shutdown flag is created false at bridge
initialization (both in the fresh state and after the init-time log record),
and every program operation stores only true into it: each step preserves a
set flag, so once true it remains true forever. -/
theorem C3_stopped_monotone :
    mkBridge.stopped = false ∧
    (∀ file line s0, LogAdapterState.init file line = some s0 → s0.stopped = false) ∧
    (∀ s s2, Step s s2 → s.stopped = true → s2.stopped = true) ∧
    (∀ s s2, Relation.ReflTransGen Step s s2 → s.stopped = true → s2.stopped = true) := by
  refine ⟨rfl, ?_, ?_, ?_⟩
  · intro file line s0 h0
    unfold LogAdapterState.init at h0
    rw [log_eq_of_not_stopped _ rfl rfl] at h0
    cases Option.some.inj h0
    rfl
  · intro s s2 hstep hs
    exact (step_preserve hstep hs).1
  · intro s s2 hst hs
    exact (steps_preserve hst hs).1

/-- Witness for C3: the fresh bridge flag is false, and a destroy step from
a concrete stopped state keeps the flag true. -/
theorem C3_witness :
    mkBridge.stopped = false ∧ (dropStore wStopped).stopped = true :=
  ⟨C3_stopped_monotone.1,
   C3_stopped_monotone.2.2.1 wStopped (dropStore wStopped)
     (Step.destroy wStopped) (by decide)⟩

/-- Claim C4 (confirmed): converting each of the five facade levels to the
bridge's severity type and taking its i32 discriminant yields trace to 2,
debug to 3, info to 4, warn to 5, error to 6. -/
theorem C4_severity_mapping :
    Level.Trace.toLogLevel.toInt = 2 ∧ Level.Debug.toLogLevel.toInt = 3 ∧
    Level.Info.toLogLevel.toInt = 4 ∧ Level.Warn.toLogLevel.toInt = 5 ∧
    Level.Error.toLogLevel.toInt = 6 := by
  decide

/-- Claim C5 (confirmed): the pre-sanitization message text is
`"<file>@<line>: <args>"` when both file and line are known,
`"<file>: <args>"` when only the file is known, and `"<args>"` when the file
is unknown, a known line without a known file behaving as file-unknown; and
the encoder's message is the sanitization of exactly that text. -/
theorem C5_message_format (file : String) (line : Nat) (args : String) (r : FacadeRecord) :
    formatMessage (some line) (some file) args = file ++ "@" ++ toString line ++ ": " ++ args ∧
    formatMessage none (some file) args = file ++ ": " ++ args ∧
    formatMessage none none args = args ∧
    formatMessage (some line) none args = args ∧
    (logRecord_from r).map LogRecord.message =
      some ((strBytes (formatMessage r.line r.file r.args)).map sanitizeByte) := by
  refine ⟨rfl, rfl, rfl, rfl, ?_⟩
  rw [logRecord_from_eq]
  rfl

/-- Claim C6 (confirmed): `string_to_cstring_lossy` succeeds on every input
(its `expect` is never reached), its output contains no interior NUL byte,
the placeholder written over a NUL byte is the byte of `?`, and the output
is byte-for-byte the input with exactly the NUL bytes substituted. -/
theorem C6_sanitization (s : List UInt8) :
    string_to_cstring_lossy s = some (s.map sanitizeByte) ∧
    (∀ b : UInt8, b ∈ s.map sanitizeByte → b ≠ 0) ∧
    sanitizeByte 0 = UInt8.ofNat (Char.toNat '?') ∧
    (s.map sanitizeByte).length = s.length ∧
    (∀ i : Nat, (s.map sanitizeByte)[i]? =
      (s[i]?).map fun b => if b = 0 then 63 else b) := by
  refine ⟨string_to_cstring_lossy_eq s, fun b hb => mem_map_sanitize_ne_zero hb,
    by decide, by simp, ?_⟩
  intro i
  simp only [List.getElem?_map]
  rfl

/-- Witness for C6 on a concrete input with an interior NUL byte. -/
theorem C6_witness :
    string_to_cstring_lossy [0, 65] = some ([0, 65].map sanitizeByte) ∧
      (63 : UInt8) ≠ 0 :=
  ⟨(C6_sanitization [0, 65]).1, (C6_sanitization [0, 65]).2.1 63 (by decide)⟩

/-- Claim C7 counterexample: a facade record whose module path is present
but contains an interior NUL byte is encoded with an absent tag — the tag is
dropped by `CString::new(..).ok()`, not sanitized — refuting that the tag is
always present with the NUL replaced. -/
theorem C7_counterexample :
    nulModuleRecord.module_path = some "a\x00b" ∧
    (0 : UInt8) ∈ strBytes "a\x00b" ∧
    (logRecord_from nulModuleRecord).map LogRecord.tag = some none := by
  refine ⟨rfl, by decide, by decide⟩

/-- Claim C7 amended (proved): for a facade record carrying a module path,
the tag is the module path's bytes unchanged when they contain no NUL byte,
and the tag is absent (dropped, not sanitized) when they do; consequently a
present tag never contains an interior NUL byte. -/
theorem C7_tag_amended (r : FacadeRecord) (mp : String) (rec : LogRecord)
    (hmp : r.module_path = some mp) (hrec : logRecord_from r = some rec) :
    ((0 : UInt8) ∉ strBytes mp → rec.tag = some (strBytes mp)) ∧
    ((0 : UInt8) ∈ strBytes mp → rec.tag = none) ∧
    (∀ t, rec.tag = some t → (0 : UInt8) ∉ t) := by
  rw [logRecord_from_eq] at hrec
  cases Option.some.inj hrec
  refine ⟨?_, ?_, ?_⟩
  · intro h0
    simp [hmp, cstring_new_eq_ite, h0]
  · intro h0
    simp [hmp, cstring_new_eq_ite, h0]
  · intro t ht
    rw [hmp] at ht
    dsimp only [Option.bind] at ht
    rw [cstring_new_eq_ite] at ht
    by_cases h0 : (0 : UInt8) ∈ strBytes mp
    · rw [if_pos h0] at ht
      cases ht
    · rw [if_neg h0] at ht
      cases Option.some.inj ht
      exact h0

/-- Witness for the amended C7 at a concrete NUL-free module path. -/
theorem C7_witness : appLogRecord.tag = some (strBytes "app") :=
  (C7_tag_amended appRecord "app" appLogRecord rfl (by decide)).1 (by decide)

/-- Claim C8 (confirmed): if the drain thread terminated by a panic
propagating out of the drain loop, the teardown's `join().unwrap()`
re-raises the failure and `ac_log_adapter_destroy` does not return normally
to its caller: the call aborts instead of suppressing the failure. -/
theorem C8_destroy_reraises (s : BridgeState) :
    dropJoin .panicked = none ∧
    (ac_log_adapter_destroy s .panicked).2 = .aborted ∧
    (ac_log_adapter_destroy s .panicked).2 ≠ .returned :=
  ⟨rfl, rfl, fun hcon => nomatch hcon⟩

/-- Claim C9 counterexample: `LogAdapterState::init` itself emits one info
record, so creating the bridge, logging `"hello"` once and draining results
in two callback invocations, not exactly one. -/
theorem C9_counterexample :
    (scenarioRun none).map (fun s => s.delivered.length) = some 2 ∧
    (scenarioRun none).map (fun s => s.delivered.length) ≠ some 1 := by
  exact ⟨by decide, by decide⟩

/-- Claim C9 amended (proved): starting from a freshly created bridge —
whose creation already queued its own initialization info record — logging
one info record with message `"hello"` and no file or line and then draining
invokes the callback exactly twice: first with the initialization record,
then exactly once with severity value 4, tag null-or-module-path, and
message `"hello"`. -/
theorem C9_single_record_scenario (file : Option String) (line : Option Nat)
    (mp : Option String) (s0 s1 s2 s3 : BridgeState)
    (h0 : LogAdapterState.init file line = some s0)
    (h1 : LogSink.log s0 (helloRecord mp) = some s1)
    (h2 : drainStep s1 .recvRecord = some s2)
    (h3 : drainStep s2 .recvRecord = some s3) :
    s3.delivered =
      [ { level := LogLevel.INFO
          tag := some (strBytes "ac_log")
          message := (strBytes (formatMessage line file "ac_log adapter initialized!")).map
            sanitizeByte },
        { level := LogLevel.INFO
          tag := mp.bind fun m => cstring_new (strBytes m)
          message := strBytes "hello" } ] ∧
    LogLevel.INFO.toInt = 4 := by
  unfold LogAdapterState.init at h0
  rw [log_eq_of_not_stopped _ rfl rfl] at h0
  cases Option.some.inj h0
  rw [log_eq_of_not_stopped _ rfl rfl] at h1
  cases Option.some.inj h1
  rw [drainStep_deliver rfl rfl rfl] at h2
  cases Option.some.inj h2
  rw [drainStep_deliver rfl rfl rfl] at h3
  cases Option.some.inj h3
  have htag : cstring_new (strBytes "ac_log") = some (strBytes "ac_log") := by decide
  have hmsg : (strBytes (formatMessage none none "hello")).map sanitizeByte =
      strBytes "hello" := by decide
  refine ⟨?_, rfl⟩
  simp [initRecord, helloRecord, htag, hmsg]
  rfl

/-- Witness for the amended C9 along the concrete scenario states. -/
theorem C9_witness :
    w3.delivered =
      [ { level := LogLevel.INFO
          tag := some (strBytes "ac_log")
          message := (strBytes (formatMessage none none "ac_log adapter initialized!")).map
            sanitizeByte },
        { level := LogLevel.INFO
          tag := (some "app").bind fun m => cstring_new (strBytes m)
          message := strBytes "hello" } ] ∧
    LogLevel.INFO.toInt = 4 :=
  C9_single_record_scenario none none (some "app") w0 w1 w2 w3
    (by decide) (by decide) (by decide) (by decide)

end AcLog

namespace Hawk

/-- Claim C10 (confirmed): `make_hawk_header` (reached from `build`) slices
the key as `hkdf_sha256_key[0..32]` for the token id and `[32..64]` for the
HMAC key; for every key of length at least 64 both slices are in bounds (32
bytes each), and for every shorter key a `build` that reaches the slicing
panics rather than returning an error `Result`. -/
theorem C10_hawk_key_slicing (key : List UInt8) (ext : ExternalSteps) :
    (64 ≤ key.length →
      sliceIndex key 0 KEY_LENGTH = some (key.take 32) ∧
      sliceIndex key KEY_LENGTH (2 * KEY_LENGTH) = some ((key.drop 32).take 32) ∧
      (key.take 32).length = 32 ∧ ((key.drop 32).take 32).length = 32) ∧
    (key.length < 64 → ext.fromUrl = Except.ok () →
      HAWKRequestBuilder.make_hawk_header ext key = .panicked ∧
      HAWKRequestBuilder.build ext key = .panicked) := by
  constructor
  · intro h64
    refine ⟨?_, ?_, ?_, ?_⟩
    · unfold sliceIndex KEY_LENGTH
      rw [if_pos ⟨by omega, by omega⟩]
      simp
    · unfold sliceIndex KEY_LENGTH
      rw [if_pos ⟨by omega, by omega⟩]
    · simp
      omega
    · simp
      omega
  · intro hlt hurl
    have hs2 : sliceIndex key KEY_LENGTH (2 * KEY_LENGTH) = none := by
      unfold sliceIndex KEY_LENGTH
      rw [if_neg (by omega)]
    have hmk : HAWKRequestBuilder.make_hawk_header ext key = .panicked := by
      unfold HAWKRequestBuilder.make_hawk_header
      rw [hurl]
      dsimp only
      by_cases h32 : 32 ≤ key.length
      · rw [show sliceIndex key 0 KEY_LENGTH = some (key.take 32) by
          unfold sliceIndex KEY_LENGTH
          rw [if_pos ⟨by omega, by omega⟩]
          simp]
        dsimp only
        rw [hs2]
      · rw [show sliceIndex key 0 KEY_LENGTH = none by
          unfold sliceIndex KEY_LENGTH
          rw [if_neg (by omega)]]
    refine ⟨hmk, ?_⟩
    unfold HAWKRequestBuilder.build
    rw [hmk]

/-- Witness for C10: a 64-byte key slices in bounds, and a 10-byte key makes
a reachable `build` panic. -/
theorem C10_witness :
    sliceIndex (List.replicate 64 (0 : UInt8)) 0 KEY_LENGTH =
      some ((List.replicate 64 (0 : UInt8)).take 32) ∧
    HAWKRequestBuilder.build extOk (List.replicate 10 (0 : UInt8)) = .panicked :=
  ⟨((C10_hawk_key_slicing (List.replicate 64 0) extOk).1 (by decide)).1,
   ((C10_hawk_key_slicing (List.replicate 10 0) extOk).2 (by decide) rfl).2⟩

end Hawk
